import Mathlib

/-!
Verification of the mbc20-claw repository: a Moltbook binding helper
(`agent.py`) and a safe MBC-20 mint post scheduler (`safe_mint_scheduler.py`).

Shallow embedding conventions:
- Times are seconds since an arbitrary epoch, as `Int`.
- JSON fields read from response bodies are `Option Int` / `Option String`
  (`none` = field absent), with Python truthiness modelled explicitly.
- Network I/O is modelled by passing the transport outcome as a value;
  exceptions that a function does not catch are modelled as `none` /
  `Except.error` results of the embedding.
- `sys.exit` codes are plain `Int` results.
-/

namespace Mbc20Claw

/-- Fixed link string `MBC_LINK` shared by both tools. -/
def MBC_LINK : String := "mbc20.xyz"

/-! ### Python string primitives

The Python string methods the two tools use, embedded structurally over the
character list of a string (so that every definition evaluates by kernel
reduction). -/

/-- A character stripped by Python's `str.strip()` (ASCII whitespace). -/
def is_py_space (c : Char) : Bool :=
  c = ' ' || c = '\t' || c = '\n' || c = '\r' || c.toNat = 11 || c.toNat = 12

/-- Python `s.strip()`. -/
def py_strip (s : String) : String :=
  String.mk (((s.data.dropWhile is_py_space).reverse.dropWhile is_py_space).reverse)

/-- Python `str.upper` on one ASCII character. -/
def py_upper_char (c : Char) : Char :=
  if 'a' ≤ c ∧ c ≤ 'z' then Char.ofNat (c.toNat - 32) else c

/-- Python `s.upper()` (ASCII range; the tickers and keys involved are ASCII). -/
def py_upper (s : String) : String := String.mk (s.data.map py_upper_char)

/-- Whether the first list is an initial segment of the second. -/
def list_is_pre : List Char → List Char → Bool
  | [], _ => true
  | _ :: _, [] => false
  | a :: as, b :: bs => a = b && list_is_pre as bs

/-- Python `s.startswith(pre)`. -/
def py_startswith (s pre : String) : Bool := list_is_pre pre.data s.data

/-- Python `s.rstrip("/")`. -/
def py_rstrip_slash (s : String) : String :=
  String.mk ((s.data.reverse.dropWhile (fun c => c = '/')).reverse)

/-! ### Scheduler: interval policy (`safe_mint_scheduler.py`) -/

/-- `platform_min_interval_minutes(created_at)` from `safe_mint_scheduler.py`:
`age = now - created_at`; returns 120 if `age.total_seconds() < 24*3600`
else 30.  `now` and `created_at` are in seconds (UTC). -/
def platform_min_interval_minutes (now created_at : Int) : Int :=
  if now - created_at < 24 * 3600 then 120 else 30

/-- Lines 172-178 of `run_scheduler`: `interval = max(chosen, min_interval)`
together with the message printed for the operator. -/
def choose_interval (chosen min_interval : Int) : Int × String :=
  let interval := max chosen min_interval
  if chosen < min_interval then
    (interval, s!"requested {chosen}m is too fast; enforced {interval}m to match platform rules")
  else
    (interval, s!"using interval {interval}m")

/-! ### Scheduler: 429 backoff (`post_once`, lines 135-145) -/

/-- The wait (seconds) computed in the `status == 429` branch of `post_once`:
`wait_s = int(retry_s or 0)`; `if retry_m: wait_s = max(wait_s, int(retry_m)*60)`;
`if wait_s <= 0: wait_s = 1800`.  `none` models an absent JSON field; Python
truthiness makes both `None` and `0` act as absent. -/
def backoff_wait_seconds (retry_m retry_s : Option Int) : Int :=
  let wait0 : Int := retry_s.getD 0
  let wait1 : Int :=
    match retry_m with
    | some m => if m ≠ 0 then max wait0 (m * 60) else wait0
    | none => wait0
  if wait1 ≤ 0 then 1800 else wait1

end Mbc20Claw

namespace Mbc20Claw

/-- C1 helper: the value of an optional field with absent treated as 0. -/
def fieldD (x : Option Int) : Int := x.getD 0

/-! ### Scheduler: posting loop (`run_scheduler`, lines 180-203) -/

/-- The scheduler loop of `run_scheduler`, driven by the list of `post_once`
outcomes of successive iterations: `sent` is incremented on a successful
attempt; control returns `0` ("done") once `count > 0 and sent >= count`.
`none` means the loop is still running after consuming the given outcomes
(with `count == 0` it runs forever). -/
def run_loop (count sent : Nat) : List Bool → Option Nat
  | [] => none
  | ok :: rest =>
    let sent' := if ok then sent + 1 else sent
    if 0 < count ∧ count ≤ sent' then some 0
    else run_loop count sent' rest

/-! ### Scheduler: post attempt and verification (`post_once`,
`submit_verification_if_needed`) -/

/-- The fields of a `/posts` response body that `post_once` and
`submit_verification_if_needed` read.  `verification_code` is
`data["verification"]["code"]`, `challenge` is
`data["verification"]["challenge"]`. -/
structure PostResp where
  success : Bool
  verification_required : Bool
  verification_code : Option String
  challenge : Option String

/-- Python truthiness of an optional string: `None` and `""` are falsy. -/
def str_falsy : Option String → Bool
  | none => true
  | some s => s = ""

/-- `submit_verification_if_needed` from `safe_mint_scheduler.py`: returns
`True` when no verification is required; otherwise fails on a missing code,
an empty stripped operator answer, or a non-2xx / `success=false` reply from
`/verify`.  The operator's raw answer and the `/verify` response are passed
in as values. -/
def submit_verification_if_needed (resp : PostResp) (answer : String)
    (verify_status : Int) (verify_success : Bool) : Bool :=
  if resp.verification_required = false then true
  else if str_falsy resp.verification_code then false
  else if py_strip answer = "" then false
  else if 200 ≤ verify_status ∧ verify_status < 300 ∧ verify_success = true then true
  else false

/-- The outcome of `post_once`: `False` on 429 (after the backoff sleep),
on any non-2xx status or `success=false` body, and on a failed verification;
`True` otherwise. -/
def post_once (status : Int) (resp : PostResp) (answer : String)
    (verify_status : Int) (verify_success : Bool) : Bool :=
  if status = 429 then false
  else if status < 200 ∨ 300 ≤ status ∨ resp.success = false then false
  else if submit_verification_if_needed resp answer verify_status verify_success = false then
    false
  else true

/-! ### JSON mappings (config / credentials files, parsed response bodies) -/

/-- A JSON value stored in a flat mapping. -/
inductive JsonVal where
  | jstr (s : String)
  | jnum (n : Int)
  | jbool (b : Bool)
  | jnull
deriving DecidableEq

/-- `d[k]` / `d.get(k)` on a JSON mapping (keys are unique after parsing;
first match for robustness). -/
def dictGet : List (String × JsonVal) → String → Option JsonVal
  | [], _ => none
  | (k', v) :: rest, k => if k' = k then some v else dictGet rest k

/-- `d[k] = v` on a JSON mapping: update in place if the key exists
(preserving position; keys are unique after JSON parsing), else append
(Python dict insertion order). -/
def dictSet : List (String × JsonVal) → String → JsonVal → List (String × JsonVal)
  | [], k, v => [(k, v)]
  | (k', v') :: rest, k, v =>
    if k' = k then (k, v) :: rest else (k', v') :: dictSet rest k v

/-- The state of a local JSON file: absent, present but not valid JSON, or
parsed into a mapping. -/
inductive JsonFile where
  | missing
  | malformed
  | parsed (d : List (String × JsonVal))

/-! ### HTTP transport -/

/-- The outcome of `urllib.request.urlopen`: a response, an
`error.HTTPError` (an HTTP status with an error body), or an
`error.URLError` carrying no HTTP response at all (connection failure). -/
inductive HttpOutcome where
  | resp (status : Int) (raw : String)
  | httpError (code : Int) (raw : String)
  | netError (reason : String)

/-- `post_json` from `agent.py`: returns `(status, raw_body)`; an
`HTTPError` yields its code and body; a `URLError` is caught and surfaced
as the pseudo-status `0` with a `network error: ...` body. -/
def post_json : HttpOutcome → Int × String
  | .resp s raw => (s, raw)
  | .httpError c raw => (c, raw)
  | .netError reason => (0, "network error: " ++ reason)

/-- `api_request` from `safe_mint_scheduler.py`: parses the body
(`json.loads`, modelled by the `parse` oracle).  Only `error.HTTPError` is
caught (with a `\x7b"success": false, "error": raw\x7d` fallback for an
unparseable error body); a `URLError` connection failure — and an
unparseable body of a *successful* response — escape as uncaught
exceptions, modelled as `none`. -/
def api_request (parse : String → Option (List (String × JsonVal))) :
    HttpOutcome → Option (Int × List (String × JsonVal))
  | .resp s raw =>
    if raw = "" then some (s, [])
    else
      match parse raw with
      | some d => some (s, d)
      | none => none
  | .httpError c raw =>
    if raw = "" then some (c, [])
    else
      match parse raw with
      | some d => some (c, d)
      | none => some (c, [("success", .jbool false), ("error", .jstr raw)])
  | .netError _ => none

/-! ### Credentials / config loading -/

/-- `load_api_key` from `safe_mint_scheduler.py`.  A missing file and a
missing/empty (stripped) `api_key` raise `RuntimeError`; malformed JSON
raises `JSONDecodeError`; a non-string value fails on `.strip()`.  All are
modelled as `.error` — each is caught by `run_scheduler`'s fatal handler.
(The real messages embed the path; the path is elided here.) -/
def load_api_key : JsonFile → Except String String
  | .missing => .error "credentials not found"
  | .malformed => .error "invalid JSON in credentials file"
  | .parsed d =>
    match dictGet d "api_key" with
    | some (.jstr s) =>
      let key := py_strip s
      if key = "" then .error "api_key missing in credentials file" else .ok key
    | some _ => .error "api_key is not a string"
    | none => .error "api_key missing in credentials file"

/-- The startup of `run_scheduler` (lines 160-170): `(result, calls)` where
`result` is `some exit_code` if the function returns during startup and
`none` if it proceeds into the posting loop, and `calls` counts API requests
made.  `me` is `none` when `/agents/me` fails (`get_me` raises), otherwise
`some is_claimed`. -/
def run_scheduler_startup (cred : JsonFile) (me : Option Bool) : Option Int × Nat :=
  match load_api_key cred with
  | .error _ => (some 1, 0)
  | .ok _ =>
    match me with
    | none => (some 1, 1)
    | some is_claimed => if is_claimed then (none, 1) else (some 1, 1)

/-- `load_config` from `agent.py`: a missing file and malformed JSON both
silently yield the empty mapping. -/
def load_config : JsonFile → List (String × JsonVal)
  | .missing => []
  | .malformed => []
  | .parsed d => d

/-! ### Validation (`agent.py`) and scheduler argument checks -/

/-- `validate_app_key` from `agent.py`. -/
def validate_app_key (app_key : String) : Except String String :=
  let value := py_strip app_key
  if py_startswith value "moltdev_" then .ok value
  else .error "app key should start with moltdev_"

/-- `normalize_api_base` from `agent.py`: strip, drop trailing `/`, require
an `http://` or `https://` scheme. -/
def normalize_api_base (api_base : String) : Except String String :=
  let value := py_rstrip_slash (py_strip api_base)
  if py_startswith value "http://" || py_startswith value "https://" then .ok value
  else .error "api-base must start with http:// or https://"

/-- A character of the class `[A-Z0-9]`. -/
def is_tick_char (c : Char) : Bool :=
  (decide ('A' ≤ c) && decide (c ≤ 'Z')) || (decide ('0' ≤ c) && decide (c ≤ '9'))

/-- `re.fullmatch(r"[A-Z0-9]\x7b1,10\x7d", s)`: length 1-10, all characters
in the class. -/
def tick_matches (s : String) : Bool :=
  decide (1 ≤ s.length) && decide (s.length ≤ 10) && s.data.all is_tick_char

/-- `validate_tick` from `agent.py`: strip, uppercase, full-match the
ticker pattern. -/
def validate_tick (tick : String) : Except String String :=
  let normalized := py_upper (py_strip tick)
  if tick_matches normalized then .ok normalized
  else .error "tick must be 1-10 uppercase letters or digits"

/-- The argument checks of `main()` in `safe_mint_scheduler.py` (lines
241-249): `some 1` when a check fails, `none` to proceed into
`run_scheduler`.  The ticker is accepted verbatim — no check reads it. -/
def scheduler_main_checks (amt interval_minutes count : Int) (tick : String) :
    Option Int :=
  if amt ≤ 0 then some 1
  else if interval_minutes ≤ 0 then some 1
  else if count < 0 then some 1
  else
    match tick with
    | _ => none

/-! ### Content builders -/

/-- One hex digit, lowercase, as produced by Python's `\u` escapes. -/
def hex_digit (n : Nat) : Char :=
  if n < 10 then Char.ofNat (48 + n) else Char.ofNat (97 + (n - 10))

/-- A `\uXXXX` escape for a code unit below 0x10000. -/
def u_escape (n : Nat) : String :=
  "\\u" ++ String.mk [hex_digit (n / 4096 % 16), hex_digit (n / 256 % 16),
    hex_digit (n / 16 % 16), hex_digit (n % 16)]

/-- The escaping of one character by `json.dumps` (default
`ensure_ascii=True`): printable ASCII other than `"`/`\` is literal, the
short escapes apply, everything else becomes `\uXXXX` (a surrogate pair
beyond 0xFFFF). -/
def json_escape_char (c : Char) : String :=
  if c = '"' then "\\\""
  else if c = '\\' then "\\\\"
  else if c = '\n' then "\\n"
  else if c = '\t' then "\\t"
  else if c = '\r' then "\\r"
  else if c.toNat = 8 then "\\b"
  else if c.toNat = 12 then "\\f"
  else if 32 ≤ c.toNat ∧ c.toNat ≤ 126 then String.singleton c
  else if c.toNat ≤ 0xFFFF then u_escape c.toNat
  else
    let v := c.toNat - 0x10000
    u_escape (0xD800 + v / 0x400) ++ u_escape (0xDC00 + v % 0x400)

/-- `json.dumps` of a string. -/
def json_dumps_str (s : String) : String :=
  "\"" ++ String.join (s.data.map json_escape_char) ++ "\""

/-- `json.dumps(\x7b"p": "mbc-20", "op": "mint", "tick": tick, "amt": amt\x7d,
separators=(",", ":"))` — identical in both tools (same dict literal, same
separators). -/
def mint_payload_json (tick amt : String) : String :=
  "\x7b\"p\":\"mbc-20\",\"op\":\"mint\",\"tick\":" ++ json_dumps_str tick ++
    ",\"amt\":" ++ json_dumps_str amt ++ "\x7d"

/-- `mint_content` from `safe_mint_scheduler.py`: payload, a single space,
the link; unless disabled, a `nonce:` suffix after a blank line.  The nonce
(current UTC time to seconds) is passed in as a value. -/
def mint_content (tick amt : String) (add_nonce : Bool) (nonce : String) : String :=
  let base := mint_payload_json tick amt ++ " " ++ MBC_LINK
  if !add_nonce then base
  else base ++ "\n\nnonce:" ++ nonce

/-- `build_mint_post` from `agent.py`: payload, a blank line, the link. -/
def build_mint_post (tick amt : String) : String :=
  mint_payload_json tick amt ++ "\n\n" ++ MBC_LINK

/-! ### `cmd_bind` (`agent.py`) -/

/-- The config updates performed by `cmd_bind` (lines 91-96): set
`app_key` and `api_base`, and `bot_api_key` only when a truthy (non-empty)
value was supplied. -/
def bind_update (config : List (String × JsonVal)) (app_key api_base : String)
    (bot_api_key : Option String) : List (String × JsonVal) :=
  let c1 := dictSet config "app_key" (.jstr app_key)
  let c2 := dictSet c1 "api_base" (.jstr api_base)
  match bot_api_key with
  | some b => if b = "" then c2 else dictSet c2 "bot_api_key" (.jstr (py_strip b))
  | none => c2

/-- `cmd_bind` from `agent.py`: `(exit_code, written_config)`; validation
failures print and return 1 without writing; otherwise the loaded config is
updated, saved, and 0 returned. -/
def cmd_bind (file : JsonFile) (app_key api_base : String)
    (bot_api_key : Option String) : Int × Option (List (String × JsonVal)) :=
  match validate_app_key app_key, normalize_api_base api_base with
  | .ok ak, .ok ab => (0, some (bind_update (load_config file) ak ab bot_api_key))
  | _, _ => (1, none)

end Mbc20Claw

open Mbc20Claw

/-- C1: on HTTP 429 the wait is the larger of `retry_after_seconds` and
`retry_after_minutes * 60` (absent fields count as 0), and 1800 when both
fields are absent or zero.  Stated for non-negative field values, the only
meaningful values of a retry-after duration. -/
theorem backoff_wait_spec (retry_m retry_s : Option Int)
    (hm : 0 ≤ fieldD retry_m) (hs : 0 ≤ fieldD retry_s) :
    backoff_wait_seconds retry_m retry_s =
      if fieldD retry_s = 0 ∧ fieldD retry_m = 0 then 1800
      else max (fieldD retry_s) (fieldD retry_m * 60) := by
  unfold backoff_wait_seconds fieldD at *
  cases retry_m with
  | none =>
    simp only [Option.getD_none, Option.getD] at *
    rcases retry_s with _ | s
    · simp
    · simp only [Option.getD_some] at hs ⊢
      by_cases h : s = 0
      · simp [h]
      · have : ¬ s ≤ 0 := by omega
        simp [h, this]
        omega
  | some m =>
    rcases retry_s with _ | s
    · simp only [Option.getD_none, Option.getD_some] at *
      by_cases h : m = 0
      · simp [h]
      · have h1 : ¬ (max (0:Int) (m * 60) ≤ 0) := by
          have : 0 < m := by omega
          have : 0 < m * 60 := by positivity
          omega
        simp [h, h1]
    · simp only [Option.getD_some] at *
      by_cases h : m = 0
      · by_cases h2 : s = 0
        · simp [h, h2]
        · have : ¬ s ≤ 0 := by omega
          simp [h, h2, this]
          omega
      · have hmax : ¬ (max s (m * 60) ≤ 0) := by
          have : 0 < m := by omega
          have : 0 < m * 60 := by positivity
          have := le_max_right s (m * 60)
          omega
        simp [h, hmax]

/-- C1 witness: `retry_after_seconds=45` alone waits 45s, `retry_after_minutes=2`
alone waits 120s, neither waits 1800s. -/
theorem backoff_wait_spec_witness :
    backoff_wait_seconds none (some 45) = 45 ∧
    backoff_wait_seconds (some 2) none = 120 ∧
    backoff_wait_seconds none none = 1800 := by
  refine ⟨?_, ?_, ?_⟩
  · have h := backoff_wait_spec none (some 45) (by decide) (by decide)
    simpa using h
  · have h := backoff_wait_spec (some 2) none (by decide) (by decide)
    simpa using h
  · have h := backoff_wait_spec none none (by decide) (by decide)
    simpa using h

/-- C2: `platform_min_interval_minutes` returns 120 exactly when the account
age is strictly below 24 hours and 30 otherwise, with the stated boundary
values: 24h−1s gives 120, exactly 24h gives 30, 24h+1s gives 30. -/
theorem platform_min_interval_spec (now created_at : Int) :
    (platform_min_interval_minutes now created_at = 120 ↔
      now - created_at < 24 * 3600) ∧
    (platform_min_interval_minutes now created_at = 30 ↔
      24 * 3600 ≤ now - created_at) ∧
    platform_min_interval_minutes (created_at + (24 * 3600 - 1)) created_at = 120 ∧
    platform_min_interval_minutes (created_at + 24 * 3600) created_at = 30 ∧
    platform_min_interval_minutes (created_at + (24 * 3600 + 1)) created_at = 30 := by
  unfold platform_min_interval_minutes
  refine ⟨?_, ?_, ?_, ?_, ?_⟩
  · by_cases h : now - created_at < 24 * 3600 <;> simp [h]
  · by_cases h : now - created_at < 24 * 3600 <;> simp [h]
  · have h : created_at + (24 * 3600 - 1) - created_at < 24 * 3600 := by omega
    simp [h]
  · have h : ¬ (created_at + 24 * 3600 - created_at < 24 * 3600) := by omega
    simp [h]
  · have h : ¬ (created_at + (24 * 3600 + 1) - created_at < 24 * 3600) := by omega
    simp [h]

/-- C3: the effective interval is `max(requested, floor)`, and when the
requested value is strictly below the floor the operator is shown the explicit
"too fast" message (otherwise the plain "using interval" message). -/
theorem choose_interval_spec (chosen min_interval : Int)
    (hc : 1 ≤ chosen) (hf : min_interval = 30 ∨ min_interval = 120) :
    (choose_interval chosen min_interval).1 = max chosen min_interval ∧
    (chosen < min_interval →
      (choose_interval chosen min_interval).2 =
        s!"requested {chosen}m is too fast; enforced {max chosen min_interval}m to match platform rules") ∧
    (min_interval ≤ chosen →
      (choose_interval chosen min_interval).2 = s!"using interval {max chosen min_interval}m") := by
  unfold choose_interval
  by_cases h : chosen < min_interval
  · refine ⟨by simp [h], fun _ => by simp [h], fun h2 => absurd h (by omega)⟩
  · refine ⟨by simp [h], fun h2 => absurd h2 h, fun _ => by simp [h]⟩

/-- C3 witness: an account created 1 hour ago has floor 120; a requested
interval of 10m is enforced to 120m with the "too fast" message. -/
theorem choose_interval_spec_witness :
    platform_min_interval_minutes 3600 0 = 120 ∧
    (choose_interval 10 120).1 = 120 ∧
    (choose_interval 10 120).2 =
      "requested 10m is too fast; enforced 120m to match platform rules" := by
  have h := choose_interval_spec 10 120 (by decide) (Or.inr rfl)
  refine ⟨by decide, ?_, ?_⟩
  · rw [h.1]; decide
  · rw [h.2.1 (by decide)]; decide

/-- Helper: with `count == 0` the loop never returns on its own. -/
theorem run_loop_zero_count (outcomes : List Bool) :
    ∀ sent : Nat, run_loop 0 sent outcomes = none := by
  induction outcomes with
  | nil => intro sent; rfl
  | cons ok rest ih =>
    intro sent
    simp only [run_loop]
    have h : ¬ (0 < 0 ∧ 0 ≤ (if ok then sent + 1 else sent)) := by omega
    rw [if_neg h]
    exact ih _

/-- Helper: as long as the target is not yet reached, the loop returns `0`
exactly when the remaining outcomes contain enough successes. -/
theorem run_loop_reaches_count (count : Nat) (outcomes : List Bool) :
    ∀ sent : Nat, sent < count →
      (run_loop count sent outcomes = some 0 ↔ count ≤ sent + outcomes.count true) := by
  induction outcomes with
  | nil =>
    intro sent hs
    simp only [run_loop, List.count_nil]
    constructor
    · intro h; exact absurd h (by simp)
    · omega
  | cons ok rest ih =>
    intro sent hs
    cases ok with
    | true =>
      simp only [run_loop, if_true, List.count_cons_self]
      by_cases h : 0 < count ∧ count ≤ sent + 1
      · rw [if_pos h]
        constructor
        · intro _; omega
        · intro _; rfl
      · have hlt : sent + 1 < count := by omega
        rw [if_neg h]
        rw [ih (sent + 1) hlt]
        omega
    | false =>
      have hcnt : (false :: rest).count true = rest.count true := by
        simp [List.count_cons]
      simp only [run_loop, Bool.false_eq_true, if_false]
      have h : ¬ (0 < count ∧ count ≤ sent) := by omega
      rw [if_neg h, hcnt]
      exact ih sent hs

/-- Helper: a failed attempt leaves the loop state unchanged: the loop
continues with the remaining outcomes. -/
theorem run_loop_failed_head (count sent : Nat) (outcomes : List Bool)
    (h : count = 0 ∨ sent < count) :
    run_loop count sent (false :: outcomes) = run_loop count sent outcomes := by
  simp only [run_loop, Bool.false_eq_true, if_false]
  have hne : ¬ (0 < count ∧ count ≤ sent) := by omega
  rw [if_neg hne]

/-- C4: the success counter advances only on successful attempts (a failed
attempt leaves the loop where it was); with `count == 0` the loop never
terminates on its own; with `count > 0` starting from `sent = 0` the loop
stops with exit code 0 exactly when the outcome sequence contains at least
`count` successes, regardless of interleaved failures. -/
theorem run_scheduler_termination (count : Nat) (outcomes : List Bool) :
    run_loop 0 0 outcomes = none ∧
    run_loop count 0 (false :: outcomes) = run_loop count 0 outcomes ∧
    (0 < count → (run_loop count 0 outcomes = some 0 ↔ count ≤ outcomes.count true)) := by
  refine ⟨run_loop_zero_count outcomes 0, ?_, ?_⟩
  · exact run_loop_failed_head count 0 outcomes (by omega)
  · intro hc
    simpa using run_loop_reaches_count count outcomes 0 hc

/-- C4 witness: a bounded run with `count = 3` stops with exit code 0 on a
sequence with exactly 3 successes among 5 attempts, and a `count = 0` run
does not stop. -/
theorem run_scheduler_termination_witness :
    run_loop 3 0 [false, true, false, true, true] = some 0 ∧
    run_loop 0 0 [false, true] = none := by
  constructor
  · exact ((run_scheduler_termination 3 [false, true, false, true, true]).2.2
      (by decide)).mpr (by decide)
  · exact (run_scheduler_termination 0 [false, true]).1

/-- C5: for a 2xx `success=true` response that requires verification, the
attempt succeeds exactly when the verification step succeeds; a missing
(falsy) verification code, an empty stripped operator answer, or a failed
`/verify` reply each make the attempt fail; and a failed attempt does not
terminate the scheduler loop. -/
theorem post_once_verification_spec (status : Int) (resp : PostResp)
    (answer : String) (verify_status : Int) (verify_success : Bool)
    (h1 : 200 ≤ status) (h2 : status < 300)
    (h3 : resp.success = true) (h4 : resp.verification_required = true) :
    post_once status resp answer verify_status verify_success =
      submit_verification_if_needed resp answer verify_status verify_success ∧
    (str_falsy resp.verification_code = true →
      post_once status resp answer verify_status verify_success = false) ∧
    (py_strip answer = "" →
      post_once status resp answer verify_status verify_success = false) ∧
    (verify_success = false →
      post_once status resp answer verify_status verify_success = false) ∧
    (post_once status resp answer verify_status verify_success = false →
      ∀ (count sent : Nat) (rest : List Bool), count = 0 ∨ sent < count →
        run_loop count sent
            (post_once status resp answer verify_status verify_success :: rest) =
          run_loop count sent rest) := by
  have h429 : status ≠ 429 := by omega
  have hlow : ¬ (status < 200 ∨ 300 ≤ status ∨ resp.success = false) := by
    push_neg
    exact ⟨by omega, by omega, by simp [h3]⟩
  have hmain : post_once status resp answer verify_status verify_success =
      submit_verification_if_needed resp answer verify_status verify_success := by
    unfold post_once
    rw [if_neg h429, if_neg hlow]
    cases hsv : submit_verification_if_needed resp answer verify_status verify_success <;>
      simp [hsv]
  refine ⟨hmain, ?_, ?_, ?_, ?_⟩
  · intro hcode
    rw [hmain]
    unfold submit_verification_if_needed
    simp [h4, hcode]
  · intro hans
    rw [hmain]
    unfold submit_verification_if_needed
    cases hcode : str_falsy resp.verification_code <;> simp [h4, hcode, hans]
  · intro hvs
    rw [hmain]
    unfold submit_verification_if_needed
    subst hvs
    cases hcode : str_falsy resp.verification_code <;>
      by_cases hans : py_strip answer = "" <;> simp [h4, hcode, hans]
  · intro hfail count sent rest hcs
    rw [hfail]
    exact run_loop_failed_head count sent rest hcs

/-- C5 witness: a verification-required 200 response whose `/verify` round
trip fails makes the whole attempt fail, and the failed attempt leaves a
bounded loop running. -/
theorem post_once_verification_spec_witness :
    post_once 200 ⟨true, true, some "V123", some "reply 525.00"⟩ "525.00" 200 false
      = false ∧
    run_loop 3 0
        (post_once 200 ⟨true, true, some "V123", some "reply 525.00"⟩ "525.00" 200 false
          :: [true]) =
      run_loop 3 0 [true] := by
  have h := post_once_verification_spec 200
    ⟨true, true, some "V123", some "reply 525.00"⟩ "525.00" 200 false
    (by decide) (by decide) rfl rfl
  refine ⟨h.2.2.2.1 rfl, ?_⟩
  exact h.2.2.2.2 (h.2.2.2.1 rfl) 3 0 [true] (by omega)

/-- C6 counterexample: in the scheduler, a connection error (a `URLError`
with no HTTP response) is NOT surfaced as a pseudo-status result —
`api_request` catches only `HTTPError`, so the exception propagates
(`none`), while the binding helper's `post_json` does surface it as
pseudo-status 0. -/
theorem network_error_counterexample :
    api_request (fun _ => none) (.netError "connection refused") = none ∧
    post_json (.netError "connection refused") =
      (0, "network error: connection refused") :=
  ⟨rfl, rfl⟩

/-- C6 (amended): the binding helper's `post_json` surfaces a network-level
failure as the pseudo-status 0 with a `network error: ...` body; the
scheduler's `api_request` does not catch it at all — the exception escapes
the loop. -/
theorem network_error_surfacing (reason : String)
    (parse : String → Option (List (String × JsonVal))) :
    post_json (.netError reason) = (0, "network error: " ++ reason) ∧
    api_request parse (.netError reason) = none :=
  ⟨rfl, rfl⟩

/-- C7 counterexample: in the binding helper a malformed JSON config file is
not fatal — `load_config` silently yields the empty mapping and `bind`
succeeds with exit code 0. -/
theorem config_error_not_fatal_counterexample :
    cmd_bind .malformed "moltdev_abc" "https://example.com" none =
      (0, some [("app_key", .jstr "moltdev_abc"),
        ("api_base", .jstr "https://example.com")]) := by
  decide

/-- C7 (amended): in the scheduler every credential error (missing file,
malformed JSON, missing/empty `api_key`) is fatal: exit code 1 with zero
network calls attempted. -/
theorem scheduler_credential_error_fatal (cred : JsonFile) (me : Option Bool)
    (msg : String) (h : load_api_key cred = .error msg) :
    run_scheduler_startup cred me = (some 1, 0) := by
  unfold run_scheduler_startup
  rw [h]

/-- C7 witness: a credentials file without `api_key` exits with status 1
before any network call. -/
theorem scheduler_credential_error_fatal_witness :
    run_scheduler_startup (.parsed []) (some true) = (some 1, 0) :=
  scheduler_credential_error_fatal (.parsed []) (some true)
    "api_key missing in credentials file" rfl

/-- C8 counterexample: the ticker `"claw!"` is rejected by the agent's
`validate_tick`, yet the scheduler's argument checks accept it and it flows
verbatim into the posted content — the two tools do not validate tickers
the same way. -/
theorem tick_validation_counterexample :
    validate_tick "claw!" = .error "tick must be 1-10 uppercase letters or digits" ∧
    scheduler_main_checks 100 30 0 "claw!" = none ∧
    mint_content "claw!" "100" false "" =
      "\x7b\"p\":\"mbc-20\",\"op\":\"mint\",\"tick\":\"claw!\",\"amt\":\"100\"\x7d mbc20.xyz" :=
  ⟨rfl, rfl, by decide⟩

/-- Helper: the Boolean ticker pattern as a proposition. -/
theorem tick_matches_iff (s : String) :
    tick_matches s = true ↔
      1 ≤ s.length ∧ s.length ≤ 10 ∧
        ∀ c ∈ s.data, ('A' ≤ c ∧ c ≤ 'Z') ∨ ('0' ≤ c ∧ c ≤ '9') := by
  simp [tick_matches, List.all_eq_true, is_tick_char, and_assoc]

/-- C8 (amended): the agent validates tickers — after stripping and
uppercasing, `validate_tick` accepts exactly the strings matching
`[A-Z0-9]` with length 1-10 — while the scheduler's pre-network argument
checks are independent of the ticker (no ticker validation at all). -/
theorem tick_validation_amended (t : String) :
    (validate_tick t = .ok (py_upper (py_strip t)) ↔
      1 ≤ (py_upper (py_strip t)).length ∧ (py_upper (py_strip t)).length ≤ 10 ∧
        ∀ c ∈ (py_upper (py_strip t)).data,
          ('A' ≤ c ∧ c ≤ 'Z') ∨ ('0' ≤ c ∧ c ≤ '9')) ∧
    (∀ (amt interval count : Int) (u : String),
      scheduler_main_checks amt interval count t =
        scheduler_main_checks amt interval count u) := by
  refine ⟨?_, fun amt interval count u => rfl⟩
  rw [← tick_matches_iff]
  unfold validate_tick
  by_cases h : tick_matches (py_upper (py_strip t)) = true
  · simp [h]
  · simp [h]

/-- C9 counterexample: on the same ticker and amount (nonce disabled) the
two content builders disagree. -/
theorem content_builders_counterexample :
    mint_content "CLAW" "100" false "" ≠ build_mint_post "CLAW" "100" := by
  decide

/-- C9 (amended): both builders emit the identical compact JSON payload
followed by the fixed link, but the scheduler separates payload and link
with a single space while the agent uses a blank line — so the outputs
differ for every ticker and amount. -/
theorem content_builders_amended (tick amt nonce : String) :
    mint_content tick amt false nonce =
      mint_payload_json tick amt ++ " " ++ MBC_LINK ∧
    build_mint_post tick amt =
      mint_payload_json tick amt ++ "\n\n" ++ MBC_LINK ∧
    mint_content tick amt false nonce ≠ build_mint_post tick amt := by
  refine ⟨rfl, rfl, fun h => ?_⟩
  have h1 : mint_content tick amt false nonce =
      mint_payload_json tick amt ++ " " ++ MBC_LINK := rfl
  have h2 : build_mint_post tick amt =
      mint_payload_json tick amt ++ "\n\n" ++ MBC_LINK := rfl
  rw [h1, h2] at h
  have hlen := congrArg String.length h
  simp only [String.length_append] at hlen
  have e1 : (" " : String).length = 1 := rfl
  have e2 : ("\n\n" : String).length = 2 := rfl
  rw [e1, e2] at hlen
  omega

/-- Helper: setting one key leaves the lookup of every other key unchanged. -/
theorem dictGet_set_ne (k1 : String) (v : JsonVal) (k2 : String) (h : k1 ≠ k2) :
    ∀ m : List (String × JsonVal), dictGet (dictSet m k1 v) k2 = dictGet m k2 := by
  intro m
  induction m with
  | nil => simp [dictSet, dictGet, if_neg h]
  | cons p rest ih =>
    obtain ⟨a, b⟩ := p
    by_cases ha : a = k1
    · subst ha
      simp [dictSet, dictGet, if_neg h]
    · simp only [dictSet, if_neg ha, dictGet]
      by_cases hk : a = k2
      · simp [hk]
      · simp [hk, ih]

/-- Helper: the `cmd_bind` config updates touch only `app_key`, `api_base`,
and — only when a truthy (non-empty) bot key was supplied — `bot_api_key`;
in particular a pre-existing `bot_api_key` entry survives a bind without
one. -/
theorem dictGet_bind_update (m : List (String × JsonVal)) (ak ab : String)
    (bot : Option String) (k : String)
    (h1 : k ≠ "app_key") (h2 : k ≠ "api_base")
    (h3 : k = "bot_api_key" → bot = none ∨ bot = some "") :
    dictGet (bind_update m ak ab bot) k = dictGet m k := by
  unfold bind_update
  cases bot with
  | none =>
    rw [dictGet_set_ne "api_base" _ _ (Ne.symm h2),
      dictGet_set_ne "app_key" _ _ (Ne.symm h1)]
  | some b =>
    by_cases hb : b = ""
    · simp only [hb, eq_self_iff_true, if_true]
      rw [dictGet_set_ne "api_base" _ _ (Ne.symm h2),
        dictGet_set_ne "app_key" _ _ (Ne.symm h1)]
    · have hk : k ≠ "bot_api_key" := by
        intro hk
        rcases h3 hk with h | h
        · exact Option.noConfusion h
        · exact hb (Option.some.inj h)
      simp only [if_neg hb]
      rw [dictGet_set_ne "bot_api_key" _ _ (Ne.symm hk),
        dictGet_set_ne "api_base" _ _ (Ne.symm h2),
        dictGet_set_ne "app_key" _ _ (Ne.symm h1)]

/-- C10: when `bind` runs over a pre-existing config that parses as a JSON
mapping and writes a config back, every key other than `app_key`,
`api_base` and — only when a truthy bot key was supplied — `bot_api_key`
has the same value in the written mapping as before; in particular a bind
without a bot key preserves a pre-existing `bot_api_key` entry. -/
theorem cmd_bind_frame (file : JsonFile) (d : List (String × JsonVal))
    (app_key api_base : String) (bot : Option String)
    (code : Int) (written : List (String × JsonVal)) (k : String)
    (hfile : file = .parsed d)
    (hbind : cmd_bind file app_key api_base bot = (code, some written))
    (h1 : k ≠ "app_key") (h2 : k ≠ "api_base")
    (h3 : k = "bot_api_key" → bot = none ∨ bot = some "") :
    dictGet written k = dictGet d k := by
  subst hfile
  unfold cmd_bind at hbind
  cases hak : validate_app_key app_key with
  | error e => rw [hak] at hbind; simp at hbind
  | ok ak =>
    cases hab : normalize_api_base api_base with
    | error e => rw [hak, hab] at hbind; simp at hbind
    | ok ab =>
      rw [hak, hab] at hbind
      simp only [Prod.mk.injEq, Option.some.injEq, load_config] at hbind
      rw [← hbind.2]
      exact dictGet_bind_update d ak ab bot k h1 h2 h3

/-- C10 witness: binding without a bot key over a config holding an
unrelated `theme` key and a pre-existing `bot_api_key` preserves both
entries in the written file. -/
theorem cmd_bind_frame_witness :
    (dictGet [("theme", JsonVal.jstr "dark"), ("bot_api_key", JsonVal.jstr "old"),
        ("app_key", JsonVal.jstr "moltdev_x"),
        ("api_base", JsonVal.jstr "https://example.com")] "theme" =
      dictGet [("theme", JsonVal.jstr "dark"), ("bot_api_key", JsonVal.jstr "old")]
        "theme") ∧
    (dictGet [("theme", JsonVal.jstr "dark"), ("bot_api_key", JsonVal.jstr "old"),
        ("app_key", JsonVal.jstr "moltdev_x"),
        ("api_base", JsonVal.jstr "https://example.com")] "bot_api_key" =
      dictGet [("theme", JsonVal.jstr "dark"), ("bot_api_key", JsonVal.jstr "old")]
        "bot_api_key") :=
  ⟨cmd_bind_frame
      (.parsed [("theme", JsonVal.jstr "dark"), ("bot_api_key", JsonVal.jstr "old")])
      [("theme", JsonVal.jstr "dark"), ("bot_api_key", JsonVal.jstr "old")]
      "moltdev_x" "https://example.com" none 0
      [("theme", JsonVal.jstr "dark"), ("bot_api_key", JsonVal.jstr "old"),
        ("app_key", JsonVal.jstr "moltdev_x"),
        ("api_base", JsonVal.jstr "https://example.com")] "theme"
      rfl (by decide) (by decide) (by decide) (fun h => absurd h (by decide)),
    cmd_bind_frame
      (.parsed [("theme", JsonVal.jstr "dark"), ("bot_api_key", JsonVal.jstr "old")])
      [("theme", JsonVal.jstr "dark"), ("bot_api_key", JsonVal.jstr "old")]
      "moltdev_x" "https://example.com" none 0
      [("theme", JsonVal.jstr "dark"), ("bot_api_key", JsonVal.jstr "old"),
        ("app_key", JsonVal.jstr "moltdev_x"),
        ("api_base", JsonVal.jstr "https://example.com")] "bot_api_key"
      rfl (by decide) (by decide) (by decide) (fun _ => Or.inl rfl)⟩
